import Mathlib

/-!
# Verification of the freegs solver core (equilibrium.py, picard.py)

A shallow embedding of the two source files of the repository:

* `src/freegs/equilibrium.py` — the `Equilibrium` class (grid, plasma flux
  field, spline interpolator, linear-solver handle, plasma current) together
  with its `solve`, `setSolverVcycle`, field accessors, and the module-level
  `refine` / `coarsen` functions;
* `src/freegs/picard.py` — the nonlinear Picard driver `solve`.

Numeric 2D arrays are embedded as total functions `Nat → Nat → ℚ` with the
shape `(nx, ny)` carried separately, floating point being modelled by exact
rational arithmetic.  External collaborators (the tokamak/machine object, the
profiles object, the boundary-condition strategy, the multigrid solver
builder, and the scipy spline-derivative evaluators) are represented by
function parameters, exactly as wide as the interface the source uses.
-/

namespace FreeGS

/-- A 2D array of rationals, indexed `[i, j]`; shape is tracked separately. -/
abbrev Field := Nat → Nat → ℚ

/-- The data handed to `scipy.interpolate.RectBivariateSpline(R[:,0], Z[0,:],
plasma_psi)`: the two knot vectors and the gridded data.  The fitted spline is
a function of this data, so the spline object is identified with it; actual
point evaluation of the spline and of its derivatives is an external (scipy)
operation and is abstracted by function parameters where needed. -/
structure SplineData where
  rknots : Nat → ℚ
  zknots : Nat → ℚ
  data : Field

/-- Embeds the call `interpolate.RectBivariateSpline(rknots, zknots, data)`. -/
def RectBivariateSpline (rk zk : Nat → ℚ) (d : Field) : SplineData :=
  { rknots := rk, zknots := zk, data := d }

/-- The coil/machine collaborator, as wide as the interface `equilibrium.py`
uses: `createPsiGreens`, `calcPsiFromGreens`, and the vacuum field components
`Br`, `Bz`. -/
structure Tokamak where
  createPsiGreens : Field → Field → Field
  calcPsiFromGreens : Field → Field
  Br : ℚ → ℚ → ℚ
  Bz : ℚ → ℚ → ℚ

/-- The profiles collaborator: `Jtor(R, Z, psi)` plus the scalar profile
accessors that `Equilibrium` passes through. -/
structure Profiles where
  Jtor : Field → Field → Field → Field
  pprime : ℚ → ℚ
  ffprime : ℚ → ℚ
  pressure : ℚ → ℚ
  fpol : ℚ → ℚ
  fvac : ℚ → ℚ

/-! ## Romberg quadrature (`scipy.integrate.romb`, `dx = 1`)

`romb` demands `2 ^ k + 1` samples.  `trapezoidEst y k i` is the composite
trapezoid estimate with `2 ^ i` intervals over the samples `y 0 .. y (2 ^ k)`
(step `2 ^ (k - i)`, `dx = 1`), and `rombTable` is the Richardson
extrapolation table `R(i, j) = R(i, j-1) + (R(i, j-1) - R(i-1, j-1)) /
(4 ^ j - 1)`; the returned value is the table corner `R(k, k)`. -/

def trapezoidEst (y : Nat → ℚ) (k i : Nat) : ℚ :=
  ((2 : ℚ) ^ (k - i)) *
    ((y 0 + y (2 ^ k)) / 2 +
      ((List.range (2 ^ i - 1)).map (fun m => y ((m + 1) * 2 ^ (k - i)))).sum)

def rombTable (y : Nat → ℚ) (k : Nat) : Nat → Nat → ℚ
  | i, 0 => trapezoidEst y k i
  | i, j + 1 =>
      rombTable y k i j +
        (rombTable y k i j - rombTable y k (i - 1) j) / ((4 : ℚ) ^ (j + 1) - 1)

/-- `romb y k` embeds `scipy.integrate.romb` applied to the `2 ^ k + 1`
samples `y 0 .. y (2 ^ k)` with `dx = 1`. -/
def romb (y : Nat → ℚ) (k : Nat) : ℚ := rombTable y k k k

/-- `romb(romb(J))`: the inner `romb` runs along the last axis (`j`), the
outer one along the first axis (`i`). -/
def romb2D (J : Field) (p q : Nat) : ℚ :=
  romb (fun i => romb (fun j => J i j) q) p

/-! ## The `Equilibrium` class -/

/-- The state of an `Equilibrium` instance: the public grid data
(`R`, `Z`, `Rmin` .. `Zmax`, `tokamak`) and the private members
`plasma_psi`, `psi_func` (spline of the plasma flux), `_pgreen` (coil
Greens-function cache), `_current` (plasma current), `_solver` (the linear
solver handle, any object callable as `solver(psi, rhs)`), and `_profiles`
(set on the first call to `solve`; absent before that, hence an `Option`). -/
structure Equilibrium where
  nx : Nat
  ny : Nat
  Rmin : ℚ
  Rmax : ℚ
  Zmin : ℚ
  Zmax : ℚ
  R : Field
  Z : Field
  tokamak : Tokamak
  plasma_psi : Field
  psi_func : SplineData
  pgreen : Field
  current : ℚ
  solver : Field → Field → Field
  profiles : Option Profiles

/-- Modelled from the spec: the type of `multigrid.createVcycle`
(`multigrid.py` is not under `src/`).  Per the spec it builds a V-cycle
solver hierarchy over an `(nx, ny)` grid from level, cycle and per-level
iteration counts and a direct-coarsest-solve flag; it runs its configured
cycles unconditionally and defines no construction-time failure, so it is
modelled as a total function whose returned solver is otherwise abstract. -/
abbrev CreateVcycle := Nat → Nat → Nat → Nat → Nat → Bool → Field → Field → Field

/-- Modelled from the spec: the type of the boundary-condition strategies
(`boundary.py` is not under `src/`).  A strategy receives the Equilibrium,
the current-density field and the plasma-psi field, and overwrites the edge
values of the plasma-psi field (the spec says the mutation happens in place;
here the mutated field is the return value). -/
abbrev BoundaryApplier := Equilibrium → Field → Field → Field

/-- `Equilibrium._updatePlasmaPsi`: stores the new plasma flux data and
rebuilds the spline interpolation coefficients from
`R[:,0]`, `Z[0,:]` and the new data, in one step. -/
def Equilibrium.updatePlasmaPsi (st : Equilibrium) (p : Field) : Equilibrium :=
  { st with
    plasma_psi := p,
    psi_func := RectBivariateSpline (fun i => st.R i 0) (fun j => st.Z 0 j) p }

/-- `Equilibrium.__init__`.  `expf` models `numpy.exp` (an external,
transcendental function, abstract here); `createVcycle` models
`multigrid.createVcycle` (see `CreateVcycle`).  The source performs no
validation of `nx`, `ny` (in particular no `2 ^ k + 1` check) and contains
no `raise`; every step is a total computation, so construction always
completes and the embedding is a total function.  The four edge-zeroing
assignments `psi[0,:] = 0; psi[:,0] = 0; psi[-1,:] = 0; psi[:,-1] = 0`
appear as nested conditionals with the later assignment outermost. -/
def Equilibrium.init (tokamak : Tokamak) (expf : ℚ → ℚ) (createVcycle : CreateVcycle)
    (Rmin Rmax Zmin Zmax : ℚ) (nx ny : Nat) : Equilibrium :=
  let dR := (Rmax - Rmin) / ((nx : ℚ) - 1)
  let dZ := (Zmax - Zmin) / ((ny : ℚ) - 1)
  let yymid := 1 - Zmax / (Zmax - Zmin)
  let psig : Field := fun i j =>
    expf (-(((i : ℚ) / ((nx : ℚ) - 1) - 1 / 2) ^ 2 +
            ((j : ℚ) / ((ny : ℚ) - 1) - yymid) ^ 2) / (2 / 5) ^ 2)
  let psi : Field := fun i j =>
    if j = ny - 1 then 0
    else if i = nx - 1 then 0
    else if j = 0 then 0
    else if i = 0 then 0
    else psig i j
  let Rf : Field := fun i _ => Rmin + (i : ℚ) * dR
  let Zf : Field := fun _ j => Zmin + (j : ℚ) * dZ
  let st0 : Equilibrium :=
    { nx := nx, ny := ny,
      Rmin := Rmin, Rmax := Rmax, Zmin := Zmin, Zmax := Zmax,
      R := Rf, Z := Zf,
      tokamak := tokamak,
      plasma_psi := psi,
      psi_func := RectBivariateSpline (fun i => Rf i 0) (fun j => Zf 0 j) psi,
      pgreen := tokamak.createPsiGreens Rf Zf,
      current := 0,
      solver := createVcycle nx ny 1 1 2 true,
      profiles := none }
  Equilibrium.updatePlasmaPsi st0 psi

/-- `Equilibrium.plasmaCurrent()`. -/
def Equilibrium.plasmaCurrent (st : Equilibrium) : ℚ := st.current

/-- `Equilibrium.psi()`: total flux `plasma_psi +
tokamak.calcPsiFromGreens(_pgreen)` (pointwise array addition). -/
def Equilibrium.psi (st : Equilibrium) : Field :=
  fun i j => st.plasma_psi i j + st.tokamak.calcPsiFromGreens st.pgreen i j

/-- `Equilibrium.plasmaBr(R, Z) = -psi_func(R, Z, dy=1)[0][0] / R`.
`dyEval` models scipy evaluation of the spline first derivative in the
second coordinate (`Z`). -/
def Equilibrium.plasmaBr (dyEval : SplineData → ℚ → ℚ → ℚ) (st : Equilibrium)
    (Rq Zq : ℚ) : ℚ :=
  -(dyEval st.psi_func Rq Zq) / Rq

/-- `Equilibrium.plasmaBz(R, Z) = psi_func(R, Z, dx=1)[0][0] / R`.
`dxEval` models scipy evaluation of the spline first derivative in the
first coordinate (`R`). -/
def Equilibrium.plasmaBz (dxEval : SplineData → ℚ → ℚ → ℚ) (st : Equilibrium)
    (Rq Zq : ℚ) : ℚ :=
  dxEval st.psi_func Rq Zq / Rq

/-- `Equilibrium.Br(R, Z) = plasmaBr(R, Z) + tokamak.Br(R, Z)`. -/
def Equilibrium.Br (dyEval : SplineData → ℚ → ℚ → ℚ) (st : Equilibrium)
    (Rq Zq : ℚ) : ℚ :=
  Equilibrium.plasmaBr dyEval st Rq Zq + st.tokamak.Br Rq Zq

/-- `Equilibrium.Bz(R, Z) = plasmaBz(R, Z) + tokamak.Bz(R, Z)`. -/
def Equilibrium.Bz (dxEval : SplineData → ℚ → ℚ → ℚ) (st : Equilibrium)
    (Rq Zq : ℚ) : ℚ :=
  Equilibrium.plasmaBz dxEval st Rq Zq + st.tokamak.Bz Rq Zq

/-! ## `Equilibrium.solve` -/

/-- The current density computed at the top of `Equilibrium.solve`:
`Jtor = profiles.Jtor(self.R, self.Z, self.psi())`, evaluated after
`self._profiles = profiles`. -/
def solveJtor (pr : Profiles) (st : Equilibrium) : Field :=
  pr.Jtor st.R st.Z (Equilibrium.psi { st with profiles := some pr })

/-- The plasma-psi field after `self._applyBoundary(self, Jtor,
self.plasma_psi)` has overwritten its edge values. -/
def solvePsiB (ab : BoundaryApplier) (pr : Profiles) (st : Equilibrium) : Field :=
  ab { st with profiles := some pr } (solveJtor pr st) st.plasma_psi

/-- The right-hand side of the linear system: `rhs = -mu0 * R * Jtor`
followed by the four edge overwrites `rhs[0,:] = psiB[0,:];
rhs[:,0] = psiB[:,0]; rhs[-1,:] = psiB[-1,:]; rhs[:,-1] = psiB[:,-1]`
(sequential in-place writes; the later write is the outermost
conditional). -/
def buildRhs (mu0 : ℚ) (nx ny : Nat) (Rf Jtor psiB : Field) : Field :=
  fun i j =>
    if j = ny - 1 then psiB i j
    else if i = nx - 1 then psiB i j
    else if j = 0 then psiB i j
    else if i = 0 then psiB i j
    else -mu0 * Rf i j * Jtor i j

/-- The right-hand side array that `Equilibrium.solve` passes to
`self._solver`. -/
def solveRhs (mu0 : ℚ) (ab : BoundaryApplier) (pr : Profiles) (st : Equilibrium) : Field :=
  buildRhs mu0 st.nx st.ny st.R (solveJtor pr st) (solvePsiB ab pr st)

/-- `Equilibrium.solve(profiles)`: store the profiles, compute `Jtor`, apply
the boundary strategy (which overwrites the plasma-psi edges in place), build
the right-hand side, run the linear solver with the boundary-applied
plasma-psi as initial guess, commit the solution through
`_updatePlasmaPsi`, and recompute the plasma current as
`romb(romb(Jtor)) * dR * dZ` with `dR = R[1,0] - R[0,0]`,
`dZ = Z[0,1] - Z[0,0]`.  `mu0` is the physical constant imported from
`gradshafranov.py` (abstract, since it is `4 π 10⁻⁷`); the sample-count
exponents for `romb` are `log2 (nx - 1)` and `log2 (ny - 1)` (the grid is
required to have `2 ^ k + 1` points per axis for the quadrature). -/
def Equilibrium.solve (mu0 : ℚ) (ab : BoundaryApplier) (pr : Profiles)
    (st : Equilibrium) : Equilibrium :=
  let st1 := { st with profiles := some pr, plasma_psi := solvePsiB ab pr st }
  let newPsi := st.solver (solvePsiB ab pr st) (solveRhs mu0 ab pr st)
  let st2 := Equilibrium.updatePlasmaPsi st1 newPsi
  { st2 with
    current :=
      romb2D (solveJtor pr st) (Nat.log2 (st.nx - 1)) (Nat.log2 (st.ny - 1)) *
        (st.R 1 0 - st.R 0 0) * (st.Z 0 1 - st.Z 0 0) }

/-! ## `refine` and `coarsen` -/

/-- `refine(eq)`: interpolate the plasma psi to double resolution
(`multigrid.interpolate`, not under `src/`, is the abstract `interp`; per
the spec its output shape is `(2 nx - 1, 2 ny - 1)`), construct a fresh
`Equilibrium` over the same domain at the new resolution, commit the
interpolated field through `_updatePlasmaPsi`, and copy `_profiles` over. -/
def refine (expf : ℚ → ℚ) (createVcycle : CreateVcycle) (interp : Field → Field)
    (eq : Equilibrium) : Equilibrium :=
  let plasma_psi := interp eq.plasma_psi
  let result := Equilibrium.init eq.tokamak expf createVcycle
    eq.Rmin eq.Rmax eq.Zmin eq.Zmax (2 * eq.nx - 1) (2 * eq.ny - 1)
  { Equilibrium.updatePlasmaPsi result plasma_psi with profiles := eq.profiles }

/-- `coarsen(eq)`: restrict the plasma psi to half resolution
(`multigrid.restrict`, not under `src/`, is the abstract `restrictF`; per
the spec its output shape is `((nx + 1) / 2, (ny + 1) / 2)`), construct a
fresh `Equilibrium`, commit through `_updatePlasmaPsi`, copy `_profiles`. -/
def coarsen (expf : ℚ → ℚ) (createVcycle : CreateVcycle) (restrictF : Field → Field)
    (eq : Equilibrium) : Equilibrium :=
  let plasma_psi := restrictF eq.plasma_psi
  let result := Equilibrium.init eq.tokamak expf createVcycle
    eq.Rmin eq.Rmax eq.Zmin eq.Zmax ((eq.nx + 1) / 2) ((eq.ny + 1) / 2)
  { Equilibrium.updatePlasmaPsi result plasma_psi with profiles := eq.profiles }

/-! ## Python call binding

`picard.solve` calls `eq.solve(profiles, niter=niter, sublevels=sublevels,
ncycle=ncycle)` although `Equilibrium.solve` has signature
`solve(self, profiles)`, and `Equilibrium.setSolverVcycle` is declared
without a `self` parameter and reads the unbound names `Rmin`, ...,
`self`.  CPython resolves both defects at the call/name-resolution level,
before (respectively instead of) executing the method body, so that level is
embedded explicitly: `bindPythonCall params numPos kwargs` binds `numPos`
positional arguments (for a bound-method call the receiver is positional
argument number one) and then the keyword arguments against the parameter
list. -/

inductive PyError where
  | typeErrorUnexpectedKeyword (kw : String)
  | typeErrorMultipleValues (kw : String)
  | typeErrorTooManyPositional
  | nameErrorUnbound (nm : String)
deriving DecidableEq

def exceptIsOk {ε β : Type} : Except ε β → Bool
  | Except.ok _ => true
  | Except.error _ => false

def bindPythonCall (params : List String) (numPos : Nat) (kwargs : List String) :
    Except PyError Unit :=
  if params.length < numPos then
    Except.error PyError.typeErrorTooManyPositional
  else
    match kwargs.find? (fun kw => (params.take numPos).contains kw) with
    | some kw => Except.error (PyError.typeErrorMultipleValues kw)
    | none =>
      match kwargs.find? (fun kw => !(params.contains kw)) with
      | some kw => Except.error (PyError.typeErrorUnexpectedKeyword kw)
      | none => Except.ok ()

/-- The parameter list of `Equilibrium.solve` in `equilibrium.py`
(line 243): `def solve(self, profiles)`. -/
def equilibriumSolveParams : List String := ["self", "profiles"]

/-- The keyword arguments that `picard.solve` passes to `eq.solve`
(`picard.py` line 73). -/
def picardSolveCallKwargs : List String := ["niter", "sublevels", "ncycle"]

/-- The call `eq.solve(profiles, niter=niter, sublevels=sublevels,
ncycle=ncycle)` performed by the Picard driver: two positional arguments
(the receiver and `profiles`) plus the three keyword arguments are bound
against `solve(self, profiles)`; only if binding succeeded would the body
(`Equilibrium.solve`) run and the flux field be updated. -/
def picardEqSolveCall (mu0 : ℚ) (ab : BoundaryApplier) (pr : Profiles)
    (st : Equilibrium) : Except PyError Equilibrium :=
  match bindPythonCall equilibriumSolveParams 2 picardSolveCallKwargs with
  | Except.error e => Except.error e
  | Except.ok _ => Except.ok (Equilibrium.solve mu0 ab pr st)

/-- The parameter list of `Equilibrium.setSolverVcycle` in `equilibrium.py`
(line 111): `def setSolverVcycle(nlevels=1, ncycle=1, niter=1, direct=True)`
— note the missing `self`. -/
def setSolverVcycleParams : List String := ["nlevels", "ncycle", "niter", "direct"]

/-- The module-level names of `equilibrium.py` (its imports plus its own
top-level definitions); in particular `Rmin` is not among them. -/
def equilibriumModuleGlobals : List String :=
  ["meshgrid", "linspace", "exp", "zeros", "nditer", "interpolate", "romb",
   "quad", "fixedBoundary", "freeBoundary", "mu0", "GSsparse", "multigrid",
   "machine", "Equilibrium", "refine", "coarsen"]

/-- The first statement of the `setSolverVcycle` body reads `Rmin` (and then
`Rmax`, `Zmin`, `Zmax`, `self`), which is neither a parameter nor a module
global: name resolution fails before `self._solver` could be assigned. -/
def setSolverVcycleBody : Except PyError Unit :=
  if setSolverVcycleParams.contains "Rmin" ||
      equilibriumModuleGlobals.contains "Rmin" then
    Except.ok ()
  else
    Except.error (PyError.nameErrorUnbound "Rmin")

/-- A call `eq.setSolverVcycle(...)` with keyword arguments `kwargs`: the
receiver is bound as the single positional argument (there is no `self`
parameter, so it lands on `nlevels`), then the keyword arguments are bound;
if binding succeeds the body immediately fails on the unbound name `Rmin`.
The state is returned unchanged in the (unreachable) success case; on every
error path `_solver` is untouched. -/
def setSolverVcycleCall (kwargs : List String) (st : Equilibrium) :
    Except PyError Equilibrium :=
  match bindPythonCall setSolverVcycleParams 1 kwargs with
  | Except.error e => Except.error e
  | Except.ok _ =>
    match setSolverVcycleBody with
    | Except.error e => Except.error e
    | Except.ok _ => Except.ok st

/-! ## The Picard driver (`picard.py`, `solve`)

The loop manipulates whole-array snapshots of the total flux `eq.psi()`;
the equilibrium object itself is abstract here (type `α`), with the effect
of `eq.solve(profiles, ...)` as `esolve`, the accessor `eq.psi()` as
`epsi` (its `n` grid cells indexed `0 .. n-1`), and the optional constraint
callable as `cons`.  `picardBody` is one pass through the `while True:`
body with `show=False`:

* `psi_last = psi.copy()`; `eq.solve(...)`; `psi = eq.psi()`;
* `psi_last -= psi` — the **in-place** subtraction, after which `psi_last`
  holds the difference, not the previous flux;
* `psi_relchange = amax(abs(psi_last)) / (amax(psi) - amin(psi))`;
* `if psi_relchange < rtol: break`;
* `if constrain is not None: constrain(eq)`;
* `psi = (1 - blend) * eq.psi() + blend * psi_last`.

Each pass also records which collaborator calls it made (`Ev.solveEv` for
`eq.solve`, `Ev.constrainEv` for `constrain(eq)`), so the call schedule is
part of the observable behaviour. -/

/-- `numpy.amax` over the `n` cells of a flattened array. -/
def amax (n : Nat) (v : Nat → ℚ) : ℚ :=
  ((List.range n).map v).foldl max (v 0)

/-- `numpy.amin` over the `n` cells of a flattened array. -/
def amin (n : Nat) (v : Nat → ℚ) : ℚ :=
  ((List.range n).map v).foldl min (v 0)

/-- `amax(abs(psi_old - psi_new)) / (amax(psi_new) - amin(psi_new))`, the
relative-change diagnostic of the Picard loop. -/
def psiRelChange (n : Nat) (psiOld psiNew : Nat → ℚ) : ℚ :=
  amax n (fun i => |psiOld i - psiNew i|) / (amax n psiNew - amin n psiNew)

/-- Collaborator calls made by the driver. -/
inductive Ev where
  | solveEv
  | constrainEv
deriving DecidableEq

/-- The parameters of one `picard.solve` run (`show=False`). -/
structure PicardEnv (α : Type) where
  esolve : α → α
  epsi : α → Nat → ℚ
  cons : Option (α → α)
  n : Nat
  rtol : ℚ
  blend : ℚ

/-- The loop state: the equilibrium object and the local variable `psi`. -/
structure PicState (α : Type) where
  eq : α
  psi : Nat → ℚ

/-- One pass through the loop body: returns `(converged?, next state, the
collaborator calls made)`. -/
def picardBody {α : Type} (E : PicardEnv α) (s : PicState α) :
    Bool × PicState α × List Ev :=
  let psi_last := s.psi
  let eq1 := E.esolve s.eq
  let psiN := E.epsi eq1
  let diff := fun i => psi_last i - psiN i
  if psiRelChange E.n psi_last psiN < E.rtol then
    (true, { eq := eq1, psi := psiN }, [Ev.solveEv])
  else
    match E.cons with
    | some c =>
      let eq2 := c eq1
      (false,
       { eq := eq2, psi := fun i => (1 - E.blend) * E.epsi eq2 i + E.blend * diff i },
       [Ev.solveEv, Ev.constrainEv])
    | none =>
      (false,
       { eq := eq1, psi := fun i => (1 - E.blend) * E.epsi eq1 i + E.blend * diff i },
       [Ev.solveEv])

/-- The state carried into the next pass. -/
def picardNext {α : Type} (E : PicardEnv α) (s : PicState α) : PicState α :=
  (picardBody E s).2.1

/-- The state at the start of pass `k` (pass `0` starts at `s`). -/
def picardTraj {α : Type} (E : PicardEnv α) (s : PicState α) (k : Nat) : PicState α :=
  (picardNext E)^[k] s

/-- The `while True:` loop, fueled (the source loop has no iteration cap;
`none` means the given fuel ran out without the `break` having fired).
Alongside the final state it returns the per-pass collaborator-call lists. -/
def picardLoop {α : Type} (E : PicardEnv α) :
    Nat → PicState α → Option (PicState α) × List (List Ev)
  | 0, _ => (none, [])
  | fuel + 1, s =>
    match picardBody E s with
    | (true, s2, tr) => (some s2, [tr])
    | (false, s2, tr) =>
      let r := picardLoop E fuel s2
      (r.1, tr :: r.2)

/-- `picard.solve(eq, profiles, constrain, rtol, blend)` with `show=False`:
the initial `constrain(eq)` (if supplied), then `psi = eq.psi()`, then the
loop.  Returns the loop result, the pre-loop calls, and the per-pass call
lists. -/
def picardSolve {α : Type} (E : PicardEnv α) (fuel : Nat) (eq0 : α) :
    Option (PicState α) × List Ev × List (List Ev) :=
  let eq1 := match E.cons with
    | some c => c eq0
    | none => eq0
  let pre := match E.cons with
    | some _ => [Ev.constrainEv]
    | none => ([] : List Ev)
  let r := picardLoop E fuel { eq := eq1, psi := E.epsi eq1 }
  (r.1, pre, r.2)

/-- Modelled from the spec: the blend update stated by the spec (§4.3 step
7) and by the docstring of `picard.solve` (lines 17-18),
`psi_next = (1 - blend) * psi_new + blend * psi_old` where `psi_old` is the
previous pass's flux. -/
def blendSpec (b : ℚ) (psiNew psiOld : Nat → ℚ) : Nat → ℚ :=
  fun i => (1 - b) * psiNew i + b * psiOld i

/-! ## Invariants and helper lemmas -/

/-- Sanity check of the Romberg embedding: a constant integrand over the
`2 ^ k` unit-width intervals integrates to `2 ^ k * c` at every trapezoid
level that exists. -/
lemma trapezoidEst_const (c : ℚ) (k i : Nat) (h : i ≤ k) :
    trapezoidEst (fun _ => c) k i = 2 ^ k * c := by
  have h1 : (1 : ℕ) ≤ 2 ^ i := Nat.one_le_two_pow
  obtain ⟨a, rfl⟩ : ∃ a, k = a + i := ⟨k - i, (Nat.sub_add_cancel h).symm⟩
  rw [trapezoidEst]
  simp only [List.map_const', List.length_range, List.sum_replicate, nsmul_eq_mul,
    Nat.add_sub_cancel, pow_add]
  rw [Nat.cast_sub h1]
  push_cast
  ring

lemma rombTable_const (c : ℚ) (k : Nat) :
    ∀ j i, i ≤ k → rombTable (fun _ => c) k i j = 2 ^ k * c := by
  intro j
  induction j with
  | zero =>
    intro i hi
    simp only [rombTable]
    exact trapezoidEst_const c k i hi
  | succ j ih =>
    intro i hi
    simp only [rombTable]
    rw [ih i hi, ih (i - 1) (le_trans (Nat.sub_le i 1) hi)]
    ring

/-- `romb` of a constant sample vector equals interval length times the
constant. -/
lemma romb_const (c : ℚ) (k : Nat) : romb (fun _ => c) k = 2 ^ k * c :=
  rombTable_const c k k k le_rfl

/-- The interpolator invariant: the stored spline is the
`RectBivariateSpline` of the knot vectors `R[:,0]`, `Z[0,:]` and the current
plasma-psi field. -/
def splineInv (st : Equilibrium) : Prop :=
  st.psi_func =
    RectBivariateSpline (fun i => st.R i 0) (fun j => st.Z 0 j) st.plasma_psi

lemma two_pow_add_one_ne_seven (k : Nat) : 2 ^ k + 1 ≠ 7 := by
  intro h
  have h6 : 2 ^ k = 6 := by omega
  have hk3 : k < 3 := by
    by_contra hk
    have h8 : (2 : Nat) ^ 3 ≤ 2 ^ k := Nat.pow_le_pow_right (by norm_num) (by omega)
    norm_num at h8
    omega
  interval_cases k <;> simp_all

lemma picardBody_fst {α : Type} (E : PicardEnv α) (s : PicState α) :
    (picardBody E s).1 = true ↔
      psiRelChange E.n s.psi (E.epsi (E.esolve s.eq)) < E.rtol := by
  by_cases h : psiRelChange E.n s.psi (E.epsi (E.esolve s.eq)) < E.rtol
  · simp [picardBody, h]
  · cases hc : E.cons <;> simp [picardBody, h, hc]

lemma picardBody_trace_true {α : Type} (E : PicardEnv α) (s : PicState α)
    (h : (picardBody E s).1 = true) : (picardBody E s).2.2 = [Ev.solveEv] := by
  by_cases hr : psiRelChange E.n s.psi (E.epsi (E.esolve s.eq)) < E.rtol
  · simp [picardBody, hr]
  · cases hc : E.cons <;> simp [picardBody, hr, hc] at h

lemma picardBody_trace_false_cons {α : Type} (E : PicardEnv α) (c : α → α)
    (hc : E.cons = some c) (s : PicState α)
    (h : (picardBody E s).1 = false) :
    (picardBody E s).2.2 = [Ev.solveEv, Ev.constrainEv] := by
  by_cases hr : psiRelChange E.n s.psi (E.epsi (E.esolve s.eq)) < E.rtol
  · simp [picardBody, hr] at h
  · simp [picardBody, hr, hc]

lemma picardLoop_succ_of_body {α : Type} (E : PicardEnv α) (fuel : Nat)
    (s s2 : PicState α) (tr : List Ev) :
    (picardBody E s = (true, s2, tr) →
      picardLoop E (fuel + 1) s = (some s2, [tr])) ∧
    (picardBody E s = (false, s2, tr) →
      picardLoop E (fuel + 1) s =
        ((picardLoop E fuel s2).1, tr :: (picardLoop E fuel s2).2)) := by
  constructor <;> intro hb <;> simp [picardLoop, hb]

lemma picardLoop_none_iff {α : Type} (E : PicardEnv α) :
    ∀ (fuel : Nat) (s : PicState α),
      (picardLoop E fuel s).1 = none ↔
        ∀ k, k < fuel → (picardBody E (picardTraj E s k)).1 = false := by
  intro fuel
  induction fuel with
  | zero => intro s; simp [picardLoop]
  | succ fuel ih =>
    intro s
    rcases hb : picardBody E s with ⟨b, s2, tr⟩
    have hnext : picardNext E s = s2 := by simp [picardNext, hb]
    cases b with
    | true =>
      rw [(picardLoop_succ_of_body E fuel s s2 tr).1 hb]
      constructor
      · intro h; simp at h
      · intro h
        have h0 := h 0 (by omega)
        simp only [picardTraj, Function.iterate_zero, id_eq] at h0
        rw [hb] at h0
        simp at h0
    | false =>
      rw [(picardLoop_succ_of_body E fuel s s2 tr).2 hb, ih s2]
      constructor
      · intro h k hk
        cases k with
        | zero =>
          simp only [picardTraj, Function.iterate_zero, id_eq]
          rw [hb]
        | succ k =>
          have htraj : picardTraj E s (k + 1) = picardTraj E s2 k := by
            simp only [picardTraj, Function.iterate_succ_apply, hnext]
          rw [htraj]
          exact h k (by omega)
      · intro h k hk
        have htraj : picardTraj E s (k + 1) = picardTraj E s2 k := by
          simp only [picardTraj, Function.iterate_succ_apply, hnext]
        have := h (k + 1) (by omega)
        rwa [htraj] at this

lemma picardLoop_trace_shape {α : Type} (E : PicardEnv α) (c : α → α)
    (hc : E.cons = some c) :
    ∀ (fuel : Nat) (s : PicState α),
      ((picardLoop E fuel s).1).isSome = true →
      ∃ k, (picardLoop E fuel s).2 =
        List.replicate k [Ev.solveEv, Ev.constrainEv] ++ [[Ev.solveEv]] := by
  intro fuel
  induction fuel with
  | zero => intro s h; simp [picardLoop] at h
  | succ fuel ih =>
    intro s h
    rcases hb : picardBody E s with ⟨b, s2, tr⟩
    cases b with
    | true =>
      rw [(picardLoop_succ_of_body E fuel s s2 tr).1 hb]
      have htr : (picardBody E s).2.2 = [Ev.solveEv] :=
        picardBody_trace_true E s (by rw [hb])
      rw [hb] at htr
      exact ⟨0, by simp [htr.symm]⟩
    | false =>
      rw [(picardLoop_succ_of_body E fuel s s2 tr).2 hb] at h ⊢
      obtain ⟨k, hk⟩ := ih s2 h
      have htr : (picardBody E s).2.2 = [Ev.solveEv, Ev.constrainEv] :=
        picardBody_trace_false_cons E c hc s (by rw [hb])
      rw [hb] at htr
      refine ⟨k + 1, ?_⟩
      simp only [List.replicate_succ, List.cons_append]
      simp [htr.symm, hk]

/-! ## Claim theorems -/

/-- C2: for every Equilibrium and every profiles object, the Picard driver's
call `eq.solve(profiles, niter=niter, sublevels=sublevels, ncycle=ncycle)`
fails at argument binding with a `TypeError` (the first offending keyword is
`niter`), so the body of `Equilibrium.solve` never runs and the flux field
is not updated: `niter` is among the passed keywords but not among the
parameters `(self, profiles)` of `Equilibrium.solve`. -/
theorem C2_kwargs_typeerror (mu0 : ℚ) (ab : BoundaryApplier) (pr : Profiles)
    (st : Equilibrium) :
    picardEqSolveCall mu0 ab pr st =
      Except.error (PyError.typeErrorUnexpectedKeyword "niter") ∧
    "niter" ∈ picardSolveCallKwargs ∧ "niter" ∉ equilibriumSolveParams := by
  refine ⟨rfl, by decide, by decide⟩

/-- C3 (code evaluated at the failing input): `nx = 7` is not of the form
`2 ^ k + 1`, yet `Equilibrium.__init__` performs no dimension validation and
completes normally for `nx = 7, ny = 65`, returning a fully constructed
state (its grid sizes are stored as requested and the starting flux guess
has zeroed edges); no configuration error is raised at construction time. -/
theorem C3_no_construction_check (tok : Tokamak) (expf : ℚ → ℚ) (cv : CreateVcycle) :
    (∀ k : Nat, 2 ^ k + 1 ≠ 7) ∧
    (Equilibrium.init tok expf cv (1 / 10) 2 (-1) 1 7 65).nx = 7 ∧
    (Equilibrium.init tok expf cv (1 / 10) 2 (-1) 1 7 65).ny = 65 ∧
    (Equilibrium.init tok expf cv (1 / 10) 2 (-1) 1 7 65).plasma_psi 0 3 = 0 := by
  exact ⟨two_pow_add_one_ne_seven, rfl, rfl, rfl⟩

/-- C5: in each call to `Equilibrium.solve`, the right-hand side handed to
the linear solver equals `-mu0 * R * Jtor` at every interior grid point, and
on the first/last rows and first/last columns it equals the plasma-psi edge
values as they stand after the boundary-condition strategy has been
applied. -/
theorem C5_solve_rhs (mu0 : ℚ) (ab : BoundaryApplier) (pr : Profiles)
    (st : Equilibrium) (i j : Nat) :
    (0 < i ∧ i < st.nx - 1 ∧ 0 < j ∧ j < st.ny - 1 →
      solveRhs mu0 ab pr st i j = -mu0 * st.R i j * solveJtor pr st i j) ∧
    (i = 0 ∨ j = 0 ∨ i = st.nx - 1 ∨ j = st.ny - 1 →
      solveRhs mu0 ab pr st i j = solvePsiB ab pr st i j) := by
  constructor <;> intro h <;> simp only [solveRhs, buildRhs] <;>
    split_ifs <;> first | rfl | omega

/-- C8: every mutator of the plasma flux field — construction, the commit
inside `Equilibrium.solve`, `refine`, `coarsen`, and `_updatePlasmaPsi`
itself — ends by installing the field through the single update operation
that also rebuilds the spline interpolator, so after each of these
operations the stored interpolator is the bicubic spline of the current
plasma-psi field. -/
theorem C8_spline_invariant :
    (∀ (st : Equilibrium) (p : Field), splineInv (Equilibrium.updatePlasmaPsi st p)) ∧
    (∀ (tok : Tokamak) (expf : ℚ → ℚ) (cv : CreateVcycle) (r0 r1 z0 z1 : ℚ)
        (nxq nyq : Nat), splineInv (Equilibrium.init tok expf cv r0 r1 z0 z1 nxq nyq)) ∧
    (∀ (mu0 : ℚ) (ab : BoundaryApplier) (pr : Profiles) (st : Equilibrium),
        splineInv (Equilibrium.solve mu0 ab pr st)) ∧
    (∀ (expf : ℚ → ℚ) (cv : CreateVcycle) (interp : Field → Field) (eq : Equilibrium),
        splineInv (refine expf cv interp eq)) ∧
    (∀ (expf : ℚ → ℚ) (cv : CreateVcycle) (restrictF : Field → Field) (eq : Equilibrium),
        splineInv (coarsen expf cv restrictF eq)) := by
  exact ⟨fun _ _ => rfl, fun _ _ _ _ _ _ _ _ _ => rfl, fun _ _ _ _ => rfl,
    fun _ _ _ _ => rfl, fun _ _ _ _ => rfl⟩

/-- C9: after every call to `Equilibrium.solve` the stored plasma current is
the 2D composite Romberg quadrature of the `Jtor` field times the grid
spacings `dR = R[1,0] - R[0,0]` and `dZ = Z[0,1] - Z[0,0]`;
`plasmaCurrent()` returns exactly the stored value; and neither the flux
update (`_updatePlasmaPsi`) nor construction sets the current to anything
else (construction initialises it to `0`). -/
theorem C9_plasma_current (mu0 : ℚ) (ab : BoundaryApplier) (pr : Profiles)
    (st : Equilibrium) :
    (Equilibrium.solve mu0 ab pr st).current =
      romb2D (solveJtor pr st) (Nat.log2 (st.nx - 1)) (Nat.log2 (st.ny - 1)) *
        (st.R 1 0 - st.R 0 0) * (st.Z 0 1 - st.Z 0 0) ∧
    Equilibrium.plasmaCurrent (Equilibrium.solve mu0 ab pr st) =
      (Equilibrium.solve mu0 ab pr st).current ∧
    (∀ p : Field, (Equilibrium.updatePlasmaPsi st p).current = st.current) ∧
    (∀ (tok : Tokamak) (expf : ℚ → ℚ) (cv : CreateVcycle) (r0 r1 z0 z1 : ℚ)
        (nxq nyq : Nat), (Equilibrium.init tok expf cv r0 r1 z0 z1 nxq nyq).current = 0) := by
  exact ⟨rfl, rfl, fun _ => rfl, fun _ _ _ _ _ _ _ _ _ => rfl⟩

/-- C7 (code evaluated at the failing input): `setSolverVcycle` can never
replace the stored solver.  Called with the natural keyword arguments, the
receiver binds to `nlevels` (the `self` parameter is missing) and binding
fails with a multiple-values `TypeError`; called with no arguments at all,
binding succeeds but the body immediately fails with a `NameError` on the
unbound `Rmin`; and no argument list whatsoever makes the call return
successfully, so `_solver` is never rebuilt. -/
theorem C7_setSolverVcycle_raises :
    (∀ st : Equilibrium,
      setSolverVcycleCall ["nlevels", "ncycle", "niter", "direct"] st =
        Except.error (PyError.typeErrorMultipleValues "nlevels")) ∧
    (∀ st : Equilibrium,
      setSolverVcycleCall [] st = Except.error (PyError.nameErrorUnbound "Rmin")) ∧
    (∀ (kwargs : List String) (st : Equilibrium),
      exceptIsOk (setSolverVcycleCall kwargs st) = false) := by
  refine ⟨fun st => rfl, fun st => rfl, fun kwargs st => ?_⟩
  unfold setSolverVcycleCall
  cases h : bindPythonCall setSolverVcycleParams 1 kwargs with
  | error e => rfl
  | ok u => rfl

/-- C10: for query points with `R > 0`, the plasma field components are
`plasmaBr = -(1/R) ∂ψ/∂Z` and `plasmaBz = (1/R) ∂ψ/∂R`, obtained by
evaluating the first derivatives of the bicubic spline built from the
current plasma-psi field (no re-solve appears in these accessors), and the
totals `Br`, `Bz` add the tokamak (coil/vacuum) field to the plasma
components. -/
theorem C10_field_components (dxEval dyEval : SplineData → ℚ → ℚ → ℚ)
    (st : Equilibrium) (Rq Zq : ℚ) (hR : 0 < Rq) (hinv : splineInv st) :
    Equilibrium.plasmaBr dyEval st Rq Zq =
      -(1 / Rq) * dyEval
        (RectBivariateSpline (fun i => st.R i 0) (fun j => st.Z 0 j) st.plasma_psi)
        Rq Zq ∧
    Equilibrium.plasmaBz dxEval st Rq Zq =
      (1 / Rq) * dxEval
        (RectBivariateSpline (fun i => st.R i 0) (fun j => st.Z 0 j) st.plasma_psi)
        Rq Zq ∧
    Equilibrium.Br dyEval st Rq Zq =
      Equilibrium.plasmaBr dyEval st Rq Zq + st.tokamak.Br Rq Zq ∧
    Equilibrium.Bz dxEval st Rq Zq =
      Equilibrium.plasmaBz dxEval st Rq Zq + st.tokamak.Bz Rq Zq := by
  rw [splineInv] at hinv
  refine ⟨?_, ?_, rfl, rfl⟩ <;>
    simp only [Equilibrium.plasmaBr, Equilibrium.plasmaBz, hinv] <;> ring

/-! ## Concrete instances used by the witness theorems -/

def tokW : Tokamak :=
  { createPsiGreens := fun _ _ => fun _ _ => 0,
    calcPsiFromGreens := fun _ => fun _ _ => 0,
    Br := fun _ _ => 1,
    Bz := fun _ _ => 2 }

def prW : Profiles :=
  { Jtor := fun _ _ _ => fun _ _ => 1,
    pprime := fun _ => 0,
    ffprime := fun _ => 0,
    pressure := fun _ => 0,
    fpol := fun _ => 0,
    fvac := fun _ => 0 }

def abW : BoundaryApplier := fun _ _ p => p

def cvW : CreateVcycle := fun _ _ _ _ _ _ => fun x _ => x

def stW : Equilibrium :=
  Equilibrium.init tokW (fun _ => 1) cvW (1 / 10) 2 (-1) 1 3 3

def dEvW : SplineData → ℚ → ℚ → ℚ := fun _ _ _ => 1

/-- Witness for C5 at a concrete solve on a 3 × 3 grid: the point `(1, 1)`
is interior and the right-hand side there is `-mu0 * R * Jtor`. -/
theorem C5_witness :
    (0 < 1 ∧ 1 < stW.nx - 1 ∧ 0 < 1 ∧ 1 < stW.ny - 1) ∧
    solveRhs 1 abW prW stW 1 1 = -1 * stW.R 1 1 * solveJtor prW stW 1 1 :=
  ⟨⟨by decide, by decide, by decide, by decide⟩,
    (C5_solve_rhs 1 abW prW stW 1 1).1 ⟨by decide, by decide, by decide, by decide⟩⟩

/-- Witness for C10 at the concrete state `stW` (which satisfies the spline
invariant by construction) and the query point `(R, Z) = (1, 0)`. -/
theorem C10_witness :
    (0 : ℚ) < 1 ∧ splineInv stW ∧
    (Equilibrium.plasmaBr dEvW stW 1 0 =
        -(1 / 1) * dEvW
          (RectBivariateSpline (fun i => stW.R i 0) (fun j => stW.Z 0 j) stW.plasma_psi)
          1 0 ∧
      Equilibrium.plasmaBz dEvW stW 1 0 =
        (1 / 1) * dEvW
          (RectBivariateSpline (fun i => stW.R i 0) (fun j => stW.Z 0 j) stW.plasma_psi)
          1 0 ∧
      Equilibrium.Br dEvW stW 1 0 =
        Equilibrium.plasmaBr dEvW stW 1 0 + stW.tokamak.Br 1 0 ∧
      Equilibrium.Bz dEvW stW 1 0 =
        Equilibrium.plasmaBz dEvW stW 1 0 + stW.tokamak.Bz 1 0) :=
  ⟨by norm_num, rfl, C10_field_components dEvW dEvW stW 1 0 (by norm_num) rfl⟩

/-- C4: the Picard loop terminates (some amount of fuel makes it return)
exactly when some pass's relative change
`amax(|psi_n - psi_{n+1}|) / (amax(psi_{n+1}) - amin(psi_{n+1}))` is
strictly below `rtol`; contrapositively, if no pass ever meets the
tolerance, no amount of fuel terminates the loop — the `break` on the
tolerance test is the only exit and the source loop has no iteration
cap. -/
theorem C4_termination_iff {α : Type} (E : PicardEnv α) (s : PicState α) :
    (∃ fuel, ((picardLoop E fuel s).1).isSome = true) ↔
    (∃ k, psiRelChange E.n (picardTraj E s k).psi
        (E.epsi (E.esolve (picardTraj E s k).eq)) < E.rtol) := by
  constructor
  · rintro ⟨fuel, hf⟩
    by_contra hno
    simp only [not_exists] at hno
    have hall : ∀ k, k < fuel → (picardBody E (picardTraj E s k)).1 = false := by
      intro k hk
      cases hbb : (picardBody E (picardTraj E s k)).1 with
      | false => rfl
      | true => exact absurd ((picardBody_fst E (picardTraj E s k)).mp hbb) (hno k)
    have hn := (picardLoop_none_iff E fuel s).mpr hall
    rw [hn] at hf
    simp at hf
  · rintro ⟨k, hk⟩
    refine ⟨k + 1, ?_⟩
    have hbt : (picardBody E (picardTraj E s k)).1 = true :=
      (picardBody_fst E (picardTraj E s k)).mpr hk
    cases ho : (picardLoop E (k + 1) s).1 with
    | some r => rfl
    | none =>
      have hfalse := (picardLoop_none_iff E (k + 1) s).mp ho k (by omega)
      rw [hbt] at hfalse
      cases hfalse

/-! ### Concrete Picard runs -/

/-- A 2-cell total-flux snapshot `[0, 4]` (the flux before a pass). -/
def psiOldC1 : Nat → ℚ := fun i => if i = 0 then 0 else 4

/-- A 2-cell total-flux snapshot `[0, 2]` (the flux the solve produces). -/
def psiNewC1 : Nat → ℚ := fun i => if i = 0 then 0 else 2

lemma amax_two (v : Nat → ℚ) : amax 2 v = max (max (v 0) (v 0)) (v 1) := by
  simp [amax, List.range_succ]

lemma amin_two (v : Nat → ℚ) : amin 2 v = min (min (v 0) (v 0)) (v 1) := by
  simp [amin, List.range_succ]

lemma relchangeC1 : psiRelChange 2 psiOldC1 psiNewC1 = 1 := by
  rw [psiRelChange, amax_two, amax_two, amin_two]
  norm_num [psiOldC1, psiNewC1, max_def, min_def]

lemma relchangeC6 : psiRelChange 2 psiOldC1 psiOldC1 = 0 := by
  rw [psiRelChange, amax_two, amax_two, amin_two]
  norm_num [psiOldC1, max_def, min_def]

/-- A Picard run on the 2-cell fields: the solve always yields `[0, 2]`, no
constraint, `rtol = 10⁻³`, `blend = 1/2`. -/
def envC1 : PicardEnv (Nat → ℚ) :=
  { esolve := fun _ => psiNewC1,
    epsi := fun v => v,
    cons := none,
    n := 2,
    rtol := 1 / 1000,
    blend := 1 / 2 }

/-- C1 (code evaluated at the failing input): starting the pass from
`psi = [0, 4]`, the solve yields `[0, 2]`, the relative change is
`2 / 2 = 1`, which is not below `rtol`, so the blend runs — but because
`psi_last -= psi` already turned `psi_last` into the difference
`psi_n - psi_{n+1}`, the flux carried into the next pass's comparison is
`(1 - b)·psi_{n+1} + b·(psi_n - psi_{n+1})`, whose cell 1 equals `2`,
whereas the blend stated by the docstring and the spec,
`(1 - b)·psi_{n+1} + b·psi_n`, gives `3` there. -/
lemma bodyC1_eval : picardBody envC1 { eq := psiOldC1, psi := psiOldC1 } =
    (false,
      { eq := psiNewC1,
        psi := fun i =>
          (1 - envC1.blend) * psiNewC1 i + envC1.blend * (psiOldC1 i - psiNewC1 i) },
      [Ev.solveEv]) := by
  have h : ¬ (psiRelChange envC1.n psiOldC1 (envC1.epsi (envC1.esolve psiOldC1)) <
      envC1.rtol) := by
    have e : psiRelChange envC1.n psiOldC1 (envC1.epsi (envC1.esolve psiOldC1)) =
        psiRelChange 2 psiOldC1 psiNewC1 := rfl
    rw [e, relchangeC1]
    norm_num [envC1]
  simp only [picardBody]
  rw [if_neg h]
  rfl

theorem C1_blend_uses_difference :
    (picardBody envC1 { eq := psiOldC1, psi := psiOldC1 }).1 = false ∧
    (picardBody envC1 { eq := psiOldC1, psi := psiOldC1 }).2.1.psi 1 = 2 ∧
    blendSpec (1 / 2) psiNewC1 psiOldC1 1 = 3 := by
  refine ⟨?_, ?_, ?_⟩
  · rw [bodyC1_eval]
  · rw [bodyC1_eval]
    norm_num [envC1, psiOldC1, psiNewC1]
  · norm_num [blendSpec, psiOldC1, psiNewC1]

/-- A Picard run with a constraint callable supplied, whose first pass
already meets the tolerance (the solve is the identity, so the change is
zero against a field of range 4). -/
def envC6 : PicardEnv (Nat → ℚ) :=
  { esolve := fun v => v,
    epsi := fun v => v,
    cons := some (fun v => v),
    n := 2,
    rtol := 1 / 1000,
    blend := 0 }

/-- C6 counterexample: in this run the (sole) pass performs its linear solve
and then breaks at the tolerance test, so its event list is `[solveEv]` —
the claim that the constraint is invoked again after the flux update on
every iteration fails on the converging final iteration. -/
lemma bodyC6 : picardBody envC6 { eq := psiOldC1, psi := psiOldC1 } =
    (true, { eq := psiOldC1, psi := psiOldC1 }, [Ev.solveEv]) := by
  have h : psiRelChange envC6.n psiOldC1 (envC6.epsi (envC6.esolve psiOldC1)) <
      envC6.rtol := by
    have e : psiRelChange envC6.n psiOldC1 (envC6.epsi (envC6.esolve psiOldC1)) =
        psiRelChange 2 psiOldC1 psiOldC1 := rfl
    rw [e, relchangeC6]
    norm_num [envC6]
  simp only [picardBody]
  rw [if_pos h]
  rfl

lemma picardSolveC6 : picardSolve envC6 5 psiOldC1 =
    (some { eq := psiOldC1, psi := psiOldC1 }, [Ev.constrainEv], [[Ev.solveEv]]) := by
  have h : picardLoop envC6 5 { eq := psiOldC1, psi := psiOldC1 } =
      (some { eq := psiOldC1, psi := psiOldC1 }, [[Ev.solveEv]]) :=
    (picardLoop_succ_of_body envC6 4 { eq := psiOldC1, psi := psiOldC1 }
      { eq := psiOldC1, psi := psiOldC1 } [Ev.solveEv]).1 bodyC6
  have e : picardSolve envC6 5 psiOldC1 =
      ((picardLoop envC6 5 { eq := psiOldC1, psi := psiOldC1 }).1, [Ev.constrainEv],
        (picardLoop envC6 5 { eq := psiOldC1, psi := psiOldC1 }).2) := rfl
  rw [e, h]

theorem C6_counterexample :
    (picardSolve envC6 5 psiOldC1).2.2 = [[Ev.solveEv]] ∧
    ¬ (∀ it ∈ (picardSolve envC6 5 psiOldC1).2.2, Ev.constrainEv ∈ it) := by
  rw [picardSolveC6]
  exact ⟨rfl, by decide⟩

/-- C6 (amended): when a constraint callable is supplied and the run
terminates, the driver calls the constraint once before the loop (hence
before every linear solve), and after the flux update only on passes that
fail the tolerance test: the per-pass event lists are `k` copies of
`[solveEv, constrainEv]` followed by the final, converging
`[solveEv]` with no constraint call after it. -/
theorem C6_constrain_schedule {α : Type} (E : PicardEnv α) (c : α → α)
    (fuel : Nat) (eq0 : α) (hc : E.cons = some c)
    (h : ((picardSolve E fuel eq0).1).isSome = true) :
    (picardSolve E fuel eq0).2.1 = [Ev.constrainEv] ∧
    ∃ k, (picardSolve E fuel eq0).2.2 =
      List.replicate k [Ev.solveEv, Ev.constrainEv] ++ [[Ev.solveEv]] := by
  have h1 : (picardSolve E fuel eq0).1 =
      (picardLoop E fuel { eq := c eq0, psi := E.epsi (c eq0) }).1 := by
    simp [picardSolve, hc]
  have h2 : (picardSolve E fuel eq0).2.2 =
      (picardLoop E fuel { eq := c eq0, psi := E.epsi (c eq0) }).2 := by
    simp [picardSolve, hc]
  constructor
  · simp [picardSolve, hc]
  · rw [h2]
    apply picardLoop_trace_shape E c hc
    rw [← h1]
    exact h

/-- Witness for C6's amended schedule: the concrete converging run. -/
theorem C6_witness :
    envC6.cons = some (fun v : Nat → ℚ => v) ∧
    ((picardSolve envC6 5 psiOldC1).1).isSome = true ∧
    ((picardSolve envC6 5 psiOldC1).2.1 = [Ev.constrainEv] ∧
      ∃ k, (picardSolve envC6 5 psiOldC1).2.2 =
        List.replicate k [Ev.solveEv, Ev.constrainEv] ++ [[Ev.solveEv]]) :=
  ⟨rfl, by rw [picardSolveC6]; rfl,
    C6_constrain_schedule envC6 (fun v => v) 5 psiOldC1 rfl (by rw [picardSolveC6]; rfl)⟩

end FreeGS
